import Mathlib

/-!
Verification development for the guruai-teaching-assistant repository.

We give a shallow embedding of the grade-differentiation engine
(`agents/worksheet_processor/models/grade_differentiation.py`), the
worksheet pipeline (`agents/worksheet_processor/tools.py`) and the
request router (`agents/guruai_coordinator/agent.py`), and prove the
specified properties about them.  Python dicts are modelled as
association lists with insert-or-overwrite semantics, exceptions as
`Except`/`Option`, and external services (LLM, OCR) as abstract
function parameters.
-/

namespace GuruAI

/-! ## String helpers, kernel-computable models of the Python builtins -/

/-- Model of Python `str.replace`: replace all non-overlapping occurrences
of `pat`, scanning left to right.  Fuel is the length of the remaining
input; one unit is spent per step and each step consumes at least one
character, so fuel never runs out on real inputs. -/
def replaceAux (pat rep : List Char) : List Char → Nat → List Char
  | l, 0 => l
  | [], _ => []
  | c :: rest, fuel + 1 =>
    if pat ≠ [] ∧ pat.isPrefixOf (c :: rest) then
      rep ++ replaceAux pat rep ((c :: rest).drop pat.length) fuel
    else
      c :: replaceAux pat rep rest fuel

/-- Model of Python `s.replace(pat, rep)`. -/
def str_replace (s pat rep : String) : String :=
  String.mk (replaceAux pat.data rep.data s.data s.data.length)

/-- Decimal digit value of a character, if it is a digit. -/
def digitVal? (c : Char) : Option Nat :=
  if '0' ≤ c ∧ c ≤ '9' then some (c.toNat - '0'.toNat) else none

/-- Accumulate a decimal number from a digit list; `none` when a
non-digit occurs or when there is no digit at all. -/
def digits_toNat? : List Char → Option Nat → Option Nat
  | [], acc => acc
  | c :: rest, acc =>
    match digitVal? c, acc with
    | some d, some a => digits_toNat? rest (some (a * 10 + d))
    | some d, none => digits_toNat? rest (some d)
    | none, _ => none

/-- Model of Python `int(s)` for the strings this codebase feeds it:
an optional sign followed by one or more decimal digits; everything
else raises `ValueError`, modelled as `none`. -/
def str_toInt? (s : String) : Option Int :=
  match s.data with
  | [] => none
  | '-' :: rest => (digits_toNat? rest none).map (fun n => -(n : Int))
  | '+' :: rest => (digits_toNat? rest none).map (fun n => (n : Int))
  | l => (digits_toNat? l none).map (fun n => (n : Int))

/-- Model of Python `s.split()[0]` for the space-separated strings used
here: the longest space-free leading segment. -/
def first_token (s : String) : String :=
  String.mk (s.data.takeWhile (fun c => c ≠ ' '))

/-! ## Python dict model: association list with insert-or-overwrite -/

/-- Dict lookup (`d[k]` / `d.get(k)` returning `none` when absent). -/
def dictLookup {α β : Type} [DecidableEq α] (k : α) : List (α × β) → Option β
  | [] => none
  | (a, b) :: rest => if a = k then some b else dictLookup k rest

/-- Dict assignment `d[k] = v`: overwrite in place when the key exists,
append otherwise (Python dicts keep first-insertion order). -/
def dictInsert {α β : Type} [DecidableEq α] (k : α) (v : β) : List (α × β) → List (α × β)
  | [] => [(k, v)]
  | (a, b) :: rest => if a = k then (k, v) :: rest else (a, b) :: dictInsert k v rest

/-! ## `grade_differentiation.py`: enums and dataclasses -/

/-- `class GradeLevel(Enum)` (grade_differentiation.py lines 6-14). -/
inductive GradeLevel where
  | grade_1 | grade_2 | grade_3 | grade_4 | grade_5 | grade_6 | grade_7 | grade_8
  deriving DecidableEq, Repr, Fintype

/-- The `.value` of each `GradeLevel` member. -/
def GradeLevel.value : GradeLevel → String
  | .grade_1 => "grade_1"
  | .grade_2 => "grade_2"
  | .grade_3 => "grade_3"
  | .grade_4 => "grade_4"
  | .grade_5 => "grade_5"
  | .grade_6 => "grade_6"
  | .grade_7 => "grade_7"
  | .grade_8 => "grade_8"

/-- Numeric index of a grade level (1 for grade_1 .. 8 for grade_8),
used to state ordering properties. -/
def GradeLevel.idx : GradeLevel → Nat
  | .grade_1 => 1
  | .grade_2 => 2
  | .grade_3 => 3
  | .grade_4 => 4
  | .grade_5 => 5
  | .grade_6 => 6
  | .grade_7 => 7
  | .grade_8 => 8

/-- `class ComplexityLevel(Enum)` (lines 16-21). -/
inductive ComplexityLevel where
  | very_simple | simple | moderate | complex | very_complex
  deriving DecidableEq, Repr

/-- `class ActivityType(Enum)` (lines 23-31). -/
inductive ActivityType where
  | observation | matching | fill_in_blanks | short_answer
  | long_answer | problem_solving | creative | hands_on
  deriving DecidableEq, Repr

/-- The `.value` of each `ActivityType` member. -/
def ActivityType.value : ActivityType → String
  | .observation => "observation"
  | .matching => "matching"
  | .fill_in_blanks => "fill_in_blanks"
  | .short_answer => "short_answer"
  | .long_answer => "long_answer"
  | .problem_solving => "problem_solving"
  | .creative => "creative"
  | .hands_on => "hands_on"

/-- `@dataclass GradeCharacteristics` (lines 33-44). -/
structure GradeCharacteristics where
  grade_level : GradeLevel
  age_range : Nat × Nat
  attention_span_minutes : Nat
  vocabulary_level : ComplexityLevel
  reading_level : ComplexityLevel
  writing_ability : ComplexityLevel
  abstract_thinking : Bool
  preferred_activities : List ActivityType
  learning_characteristics : List String
  deriving DecidableEq, Repr

/-- `@dataclass ContentDifferentiation` (lines 46-50); the free-form
inner `Dict[str, Any]` adaptation descriptors are string-valued here. -/
structure ContentDifferentiation where
  concept : String
  grade_adaptations : List (GradeLevel × List (String × String))
  deriving DecidableEq, Repr

/-- `GradeDifferentiationModel._initialize_grade_characteristics`
(lines 59-242): the dict literal, in source order. -/
def _initialize_grade_characteristics : List (GradeLevel × GradeCharacteristics) :=
  [ (GradeLevel.grade_1,
     { grade_level := GradeLevel.grade_1
       age_range := (6, 7)
       attention_span_minutes := 10
       vocabulary_level := ComplexityLevel.very_simple
       reading_level := ComplexityLevel.very_simple
       writing_ability := ComplexityLevel.very_simple
       abstract_thinking := false
       preferred_activities :=
         [ActivityType.observation, ActivityType.matching, ActivityType.hands_on]
       learning_characteristics :=
         [ "Learn through play and games", "Need concrete examples",
           "Short attention spans", "Learn through repetition",
           "Prefer visual and tactile learning" ] }),
    (GradeLevel.grade_2,
     { grade_level := GradeLevel.grade_2
       age_range := (7, 8)
       attention_span_minutes := 15
       vocabulary_level := ComplexityLevel.simple
       reading_level := ComplexityLevel.simple
       writing_ability := ComplexityLevel.simple
       abstract_thinking := false
       preferred_activities :=
         [ActivityType.observation, ActivityType.matching,
          ActivityType.fill_in_blanks, ActivityType.hands_on]
       learning_characteristics :=
         [ "Beginning to read simple sentences", "Can write simple words",
           "Still need concrete examples", "Enjoy stories and songs",
           "Learn well in groups" ] }),
    (GradeLevel.grade_3,
     { grade_level := GradeLevel.grade_3
       age_range := (8, 9)
       attention_span_minutes := 20
       vocabulary_level := ComplexityLevel.simple
       reading_level := ComplexityLevel.simple
       writing_ability := ComplexityLevel.simple
       abstract_thinking := false
       preferred_activities :=
         [ActivityType.short_answer, ActivityType.matching,
          ActivityType.fill_in_blanks, ActivityType.hands_on, ActivityType.creative]
       learning_characteristics :=
         [ "Can read simple paragraphs", "Beginning paragraph writing",
           "Starting to think logically", "Curious and ask many questions",
           "Learn through exploration" ] }),
    (GradeLevel.grade_4,
     { grade_level := GradeLevel.grade_4
       age_range := (9, 10)
       attention_span_minutes := 25
       vocabulary_level := ComplexityLevel.moderate
       reading_level := ComplexityLevel.moderate
       writing_ability := ComplexityLevel.simple
       abstract_thinking := false
       preferred_activities :=
         [ActivityType.short_answer, ActivityType.problem_solving,
          ActivityType.creative, ActivityType.hands_on]
       learning_characteristics :=
         [ "Can read longer texts", "Writing skills developing",
           "Beginning analytical thinking", "Enjoy collaborative work",
           "Can follow multi-step instructions" ] }),
    (GradeLevel.grade_5,
     { grade_level := GradeLevel.grade_5
       age_range := (10, 11)
       attention_span_minutes := 30
       vocabulary_level := ComplexityLevel.moderate
       reading_level := ComplexityLevel.moderate
       writing_ability := ComplexityLevel.moderate
       abstract_thinking := true
       preferred_activities :=
         [ActivityType.short_answer, ActivityType.long_answer,
          ActivityType.problem_solving, ActivityType.creative]
       learning_characteristics :=
         [ "Can understand complex texts", "Developing writing skills",
           "Beginning abstract reasoning", "Can work independently",
           "Understand cause and effect" ] }),
    (GradeLevel.grade_6,
     { grade_level := GradeLevel.grade_6
       age_range := (11, 12)
       attention_span_minutes := 35
       vocabulary_level := ComplexityLevel.moderate
       reading_level := ComplexityLevel.complex
       writing_ability := ComplexityLevel.moderate
       abstract_thinking := true
       preferred_activities :=
         [ActivityType.long_answer, ActivityType.problem_solving, ActivityType.creative]
       learning_characteristics :=
         [ "Can analyze and synthesize information", "Developing critical thinking",
           "Can handle abstract concepts", "Prefer challenging tasks",
           "Beginning to form personal opinions" ] }),
    (GradeLevel.grade_7,
     { grade_level := GradeLevel.grade_7
       age_range := (12, 13)
       attention_span_minutes := 40
       vocabulary_level := ComplexityLevel.complex
       reading_level := ComplexityLevel.complex
       writing_ability := ComplexityLevel.complex
       abstract_thinking := true
       preferred_activities :=
         [ActivityType.long_answer, ActivityType.problem_solving, ActivityType.creative]
       learning_characteristics :=
         [ "Strong analytical abilities", "Can handle complex concepts",
           "Developing research skills", "Can work on long-term projects",
           "Beginning metacognitive awareness" ] }),
    (GradeLevel.grade_8,
     { grade_level := GradeLevel.grade_8
       age_range := (13, 14)
       attention_span_minutes := 45
       vocabulary_level := ComplexityLevel.complex
       reading_level := ComplexityLevel.very_complex
       writing_ability := ComplexityLevel.complex
       abstract_thinking := true
       preferred_activities :=
         [ActivityType.long_answer, ActivityType.problem_solving, ActivityType.creative]
       learning_characteristics :=
         [ "Advanced critical thinking", "Can handle highly abstract concepts",
           "Strong research and analysis skills", "Can create original work",
           "Developing personal learning strategies" ] }) ]

/-- `GradeDifferentiationModel._initialize_differentiation_rules`
(lines 244-291): the sparse concept table, in source order. -/
def _initialize_differentiation_rules : List (String × ContentDifferentiation) :=
  [ ("addition",
     { concept := "addition"
       grade_adaptations :=
         [ (GradeLevel.grade_1,
            [ ("approach", "concrete_objects"), ("range", "1-10"),
              ("format", "pictures_and_symbols"), ("examples", "counting toys, fruits") ]),
           (GradeLevel.grade_2,
            [ ("approach", "visual_representation"), ("range", "1-20"),
              ("format", "number_line"), ("examples", "adding school supplies") ]),
           (GradeLevel.grade_3,
            [ ("approach", "abstract_numbers"), ("range", "1-100"),
              ("format", "vertical_addition"), ("examples", "money problems") ]) ] }),
    ("photosynthesis",
     { concept := "photosynthesis"
       grade_adaptations :=
         [ (GradeLevel.grade_2,
            [ ("approach", "plants_need_sunlight"), ("vocabulary", "simple_words"),
              ("activities", "observation_drawing") ]),
           (GradeLevel.grade_4,
            [ ("approach", "plants_make_food"), ("vocabulary", "basic_scientific_terms"),
              ("activities", "simple_experiments") ]),
           (GradeLevel.grade_6,
            [ ("approach", "chemical_process"), ("vocabulary", "scientific_terminology"),
              ("activities", "detailed_experiments") ]) ] }) ]

/-- `class GradeDifferentiationModel`, state as set up by `__init__`
(lines 52-57). -/
structure GradeDifferentiationModel where
  grade_characteristics : List (GradeLevel × GradeCharacteristics)
  differentiation_rules : List (String × ContentDifferentiation)
  deriving DecidableEq, Repr

/-- `GradeDifferentiationModel()` : the freshly constructed instance. -/
def GradeDifferentiationModel.init : GradeDifferentiationModel :=
  { grade_characteristics := _initialize_grade_characteristics
    differentiation_rules := _initialize_differentiation_rules }

/-- `get_grade_characteristics` (lines 293-295).  Python indexes the
dict and raises `KeyError` on a missing key; `none` models that. -/
def GradeDifferentiationModel.get_grade_characteristics
    (m : GradeDifferentiationModel) (grade_level : GradeLevel) :
    Option GradeCharacteristics :=
  dictLookup grade_level m.grade_characteristics

/-- `_make_very_simple` (lines 330-343): the three word replacements,
applied in dict-literal order. -/
def _make_very_simple (content : String) : String :=
  str_replace
    (str_replace
      (str_replace content "photosynthesis" "plants making food")
      "multiplication" "adding many times")
    "environment" "the place around us"

/-- `_make_simple` (lines 345-348). -/
def _make_simple (content : String) : String := content

/-- `_make_moderate` (lines 350-352). -/
def _make_moderate (content : String) : String := content

/-- `_simplify_language` (lines 317-328). -/
def _simplify_language (content : String) (vocabulary_level : ComplexityLevel) : String :=
  if vocabulary_level = ComplexityLevel.very_simple then _make_very_simple content
  else if vocabulary_level = ComplexityLevel.simple then _make_simple content
  else if vocabulary_level = ComplexityLevel.moderate then _make_moderate content
  else content

/-- `_get_teaching_approach` (lines 354-361). -/
def _get_teaching_approach (characteristics : GradeCharacteristics) : String :=
  if !characteristics.abstract_thinking then "concrete_hands_on"
  else if characteristics.grade_level.value ∈ (["grade_3", "grade_4", "grade_5"] : List String) then
    "visual_conceptual"
  else "abstract_analytical"

/-- `_get_assessment_method` (lines 363-370). -/
def _get_assessment_method (characteristics : GradeCharacteristics) : String :=
  if characteristics.grade_level.value ∈ (["grade_1", "grade_2"] : List String) then
    "observation_based"
  else if characteristics.grade_level.value ∈ (["grade_3", "grade_4"] : List String) then
    "simple_written_tasks"
  else "comprehensive_assessment"

/-- The dict returned by `adapt_content_for_grade` (lines 307-315),
one field per key. -/
structure AdaptResult where
  adapted_content : String
  recommended_activities : List String
  time_estimate : Nat
  teaching_approach : String
  assessment_method : String
  specific_adaptations : List (String × String)
  learning_characteristics : List String
  deriving DecidableEq, Repr

/-- `adapt_content_for_grade` (lines 297-315).  The initial
`get_grade_characteristics` lookup can raise `KeyError` in Python,
modelled by `none`. -/
def GradeDifferentiationModel.adapt_content_for_grade
    (m : GradeDifferentiationModel) (content concept : String)
    (grade_level : GradeLevel) : Option AdaptResult :=
  match m.get_grade_characteristics grade_level with
  | none => none
  | some characteristics =>
    let specific_adaptations :=
      match dictLookup concept m.differentiation_rules with
      | some differentiation =>
        match dictLookup grade_level differentiation.grade_adaptations with
        | some a => a
        | none => []
      | none => []
    some
      { adapted_content := _simplify_language content characteristics.vocabulary_level
        recommended_activities := characteristics.preferred_activities.map ActivityType.value
        time_estimate := characteristics.attention_span_minutes
        teaching_approach := _get_teaching_approach characteristics
        assessment_method := _get_assessment_method characteristics
        specific_adaptations := specific_adaptations
        learning_characteristics := characteristics.learning_characteristics }

/-- `get_multi_grade_adaptations` (lines 372-379): a dict built by
iterating the grade list; an exception in any iteration propagates. -/
def GradeDifferentiationModel.get_multi_grade_adaptations
    (m : GradeDifferentiationModel) (content concept : String)
    (grade_levels : List GradeLevel) : Option (List (GradeLevel × AdaptResult)) :=
  grade_levels.foldlM
    (fun adaptations grade_level =>
      (m.adapt_content_for_grade content concept grade_level).map
        (fun r => dictInsert grade_level r adaptations))
    []

/-- Inner per-grade record of `suggest_cross_grade_activities`
(lines 408-412). -/
structure CrossGradeAdaptation where
  time : Nat
  complexity : String
  support_needed : String
  deriving DecidableEq, Repr

/-- One activity record of `suggest_cross_grade_activities`
(lines 386-402 plus the per-grade dict added at 405-412). -/
structure CrossGradeActivity where
  name : String
  description : String
  differentiation : String
  grade_adaptations : List (String × CrossGradeAdaptation)
  deriving DecidableEq, Repr

/-- `suggest_cross_grade_activities` (lines 381-415). -/
def GradeDifferentiationModel.suggest_cross_grade_activities
    (m : GradeDifferentiationModel) (_concept : String)
    (grade_levels : List GradeLevel) : Option (List CrossGradeActivity) :=
  let base : List (String × String × String) :=
    [ ("Group Discussion", "Discuss the concept with grade-appropriate questions",
       "question_complexity"),
      ("Drawing Activity", "Visual representation of the concept", "detail_level"),
      ("Hands-on Exploration", "Physical manipulation and exploration",
       "complexity_of_materials") ]
  base.foldlM
    (fun activities b => do
      let adaptations ← grade_levels.foldlM
        (fun acc grade_level => do
          let characteristics ← m.get_grade_characteristics grade_level
          pure (dictInsert grade_level.value
            { time := characteristics.attention_span_minutes
              complexity :=
                (match characteristics.vocabulary_level with
                 | ComplexityLevel.very_simple => "very_simple"
                 | ComplexityLevel.simple => "simple"
                 | ComplexityLevel.moderate => "moderate"
                 | ComplexityLevel.complex => "complex"
                 | ComplexityLevel.very_complex => "very_complex")
              support_needed :=
                if !characteristics.abstract_thinking then "high" else "low" }
            acc))
        []
      pure (activities ++
        [{ name := b.1, description := b.2.1, differentiation := b.2.2,
           grade_adaptations := adaptations }]))
    []

/-! State-passing forms of the public methods.  The Python method
bodies contain no assignment to `self`, so a statement-by-statement
translation threads the instance through unchanged; these wrappers
make that explicit so that read-only-ness and determinism across runs
can be stated. -/

/-- `get_grade_characteristics` with the instance state threaded. -/
def GradeDifferentiationModel.get_grade_characteristicsS
    (m : GradeDifferentiationModel) (grade_level : GradeLevel) :
    Option GradeCharacteristics × GradeDifferentiationModel :=
  (m.get_grade_characteristics grade_level, m)

/-- `adapt_content_for_grade` with the instance state threaded. -/
def GradeDifferentiationModel.adapt_content_for_gradeS
    (m : GradeDifferentiationModel) (content concept : String)
    (grade_level : GradeLevel) : Option AdaptResult × GradeDifferentiationModel :=
  (m.adapt_content_for_grade content concept grade_level, m)

/-- `get_multi_grade_adaptations` with the instance state threaded. -/
def GradeDifferentiationModel.get_multi_grade_adaptationsS
    (m : GradeDifferentiationModel) (content concept : String)
    (grade_levels : List GradeLevel) :
    Option (List (GradeLevel × AdaptResult)) × GradeDifferentiationModel :=
  (m.get_multi_grade_adaptations content concept grade_levels, m)

/-- `suggest_cross_grade_activities` with the instance state threaded. -/
def GradeDifferentiationModel.suggest_cross_grade_activitiesS
    (m : GradeDifferentiationModel) (concept : String)
    (grade_levels : List GradeLevel) :
    Option (List CrossGradeActivity) × GradeDifferentiationModel :=
  (m.suggest_cross_grade_activities concept grade_levels, m)

/-! ## `tools.py`: the worksheet pipeline -/

/-- One activity dict inside a worksheet section (tools.py lines
497-503 etc.).  The `questions` key is present in some activity
literals and absent in others, hence `Option`. -/
structure WsActivity where
  instruction : String
  questions : Option (List String)
  format : String
  deriving DecidableEq, Repr

/-- One worksheet section dict (`title` / `type` / `activities` /
`time_estimate`); `type` is a Lean keyword, rendered `type_`. -/
structure WsSection where
  title : String
  type_ : String
  activities : List WsActivity
  time_estimate : String
  deriving DecidableEq, Repr

/-- `_create_early_primary_sections` (lines 491-518); the arguments
are accepted and ignored exactly as in the source. -/
def _create_early_primary_sections
    (_content : String) (_concepts : List String) (_subject : String) : List WsSection :=
  [ { title := "देखो और बताओ (Look and Tell)"
      type_ := "observation"
      activities :=
        [ { instruction := "चित्र को देखकर सवालों के जवाब दो"
            questions := some ["यह क्या है?", "इसका रंग कैसा है?", "यह कहाँ मिलता है?"]
            format := "oral_response" } ]
      time_estimate := "10 minutes" },
    { title := "मिलान करो (Match)"
      type_ := "matching"
      activities :=
        [ { instruction := "सही जोड़े बनाओ"
            questions := none
            format := "drawing_lines" } ]
      time_estimate := "15 minutes" } ]

/-- `_create_primary_sections` (lines 520-547). -/
def _create_primary_sections
    (_content : String) (_concepts : List String) (_subject : String) : List WsSection :=
  [ { title := "समझो और लिखो (Understand and Write)"
      type_ := "comprehension"
      activities :=
        [ { instruction := "पैराग्राफ पढ़कर सवालों के जवाब लिखो"
            questions := some ["मुख्य विषय क्या है?", "कोई तीन मुख्य बातें लिखो"]
            format := "written_response" } ]
      time_estimate := "20 minutes" },
    { title := "अभ्यास करो (Practice)"
      type_ := "application"
      activities :=
        [ { instruction := "दिए गए उदाहरणों को हल करो"
            questions := none
            format := "problem_solving" } ]
      time_estimate := "25 minutes" } ]

/-- `_create_upper_primary_sections` (lines 549-576). -/
def _create_upper_primary_sections
    (_content : String) (_concepts : List String) (_subject : String) : List WsSection :=
  [ { title := "विश्लेषण करो (Analyze)"
      type_ := "analysis"
      activities :=
        [ { instruction := "गहराई से सोचकर जवाब दो"
            questions := some ["कारण और परिणाम क्या हैं?", "अपनी राय दो"]
            format := "detailed_written_response" } ]
      time_estimate := "25 minutes" },
    { title := "लागू करो (Apply)"
      type_ := "application"
      activities :=
        [ { instruction := "वास्तविक जीवन में इसका उपयोग कैसे करोगे?"
            questions := none
            format := "project_based" } ]
      time_estimate := "30 minutes" } ]

/-- `_generate_worksheet_title` (lines 467-476): the dict literal plus
`.get(subject, titles["general"])`, as an equivalent chain. -/
def _generate_worksheet_title (subject concept : String) (grade : Int) : String :=
  if subject = "mathematics" then
    "गणित अभ्यास - " ++ concept ++ " (कक्षा " ++ toString grade ++ ")"
  else if subject = "science" then
    "विज्ञान अन्वेषण - " ++ concept ++ " (कक्षा " ++ toString grade ++ ")"
  else if subject = "social_studies" then
    "सामाजिक अध्ययन - " ++ concept ++ " (कक्षा " ++ toString grade ++ ")"
  else
    "अध्ययन पत्रक - " ++ concept ++ " (कक्षा " ++ toString grade ++ ")"

/-- `_adapt_learning_objectives` (lines 478-489). -/
def _adapt_learning_objectives (objectives : List String) (grade_num : Int) : List String :=
  objectives.map (fun objective =>
    if grade_num ≤ 2 then "Basic: " ++ objective
    else if grade_num ≤ 5 then "Intermediate: " ++ objective
    else "Advanced: " ++ objective)

/-- The assessment dict of `_create_grade_appropriate_assessment`
(lines 588-601); `type` rendered `type_`. -/
structure WsAssessment where
  type_ : String
  criteria : List String
  scale : String
  deriving DecidableEq, Repr

/-- `_create_grade_appropriate_assessment` (lines 588-601). -/
def _create_grade_appropriate_assessment (grade_num : Int) (_subject : String) : WsAssessment :=
  if grade_num ≤ 2 then
    { type_ := "observational"
      criteria := ["Participation", "Understanding", "Effort"]
      scale := "Excellent/Good/Needs Improvement" }
  else
    { type_ := "rubric_based"
      criteria := ["Content Knowledge", "Application", "Communication"]
      scale := "4-point scale" }

/-- `_list_required_materials` (lines 603-610). -/
def _list_required_materials (_sections : List WsSection) (grade_num : Int) : List String :=
  let basic_materials := ["paper", "pencil", "eraser"]
  if grade_num ≤ 2 then basic_materials ++ ["crayons", "pictures"]
  else basic_materials ++ ["ruler", "colored pencils"]

/-- `_estimate_completion_time` (lines 612-619).
`int(section["time_estimate"].split()[0])` raises on a malformed time
string (`none` here); our section literals always carry the key, and
`int(total * 1.5)` is `total * 3 / 2` on the non-negative totals that
occur. -/
def _estimate_completion_time (sections : List WsSection) (grade_num : Int) : Option String := do
  let minutes ← sections.mapM (fun s => str_toInt? (first_token s.time_estimate))
  let total := minutes.foldl (· + ·) (0 : Int)
  let total := if grade_num ≤ 2 then total * 3 / 2 else total
  pure (toString total ++ " minutes")

/-- The dict returned by `_translate_worksheet_to_hindi`
(lines 578-586); it reads only the worksheet's `title` key. -/
structure HindiVersion where
  title_hindi : String
  instructions_hindi : String
  notes : String
  deriving DecidableEq, Repr

/-- `_translate_worksheet_to_hindi` (lines 578-586). -/
def _translate_worksheet_to_hindi (title : String) : HindiVersion :=
  { title_hindi := title
    instructions_hindi := "Hindi instructions would go here"
    notes := "Complete Hindi version available" }

/-- `int(grade_level.replace('grade_', ''))` (line 207 and 684). -/
def parse_grade_num (grade_level : String) : Option Int :=
  str_toInt? (str_replace grade_level "grade_" "")

/-- Projection of the `analyze_content_complexity` result dict
(lines 170-181) onto the fields the worksheet generator consumes:
`subject`, `key_concepts`, `learning_objectives`. -/
structure ContentAnalysis where
  subject : String
  key_concepts : List String
  learning_objectives : List String
  deriving DecidableEq, Repr

/-- One worksheet dict as assembled at lines 209-240, one field per
key in insertion order; `hindi_version` is added only for Hindi
language preferences, hence `Option`. -/
structure Worksheet where
  grade_level : String
  title : String
  learning_objectives : List String
  sections : List WsSection
  hindi_version : Option HindiVersion
  assessment : WsAssessment
  materials_needed : List String
  estimated_time : String
  deriving DecidableEq, Repr

/-- One iteration of the `for grade_level in grade_levels` loop of
`generate_differentiated_worksheets` (lines 206-240). -/
def generate_step (content : String) (content_analysis : ContentAnalysis)
    (language_preference : String) (worksheets : List (String × Worksheet))
    (grade_level : String) : Except String (List (String × Worksheet)) :=
  match parse_grade_num grade_level with
  | none => Except.error ("invalid literal for int() with base 10: " ++ grade_level)
  | some grade_num =>
    let subject := content_analysis.subject
    let key_concepts := content_analysis.key_concepts
    let sections :=
      if grade_num ≤ 2 then _create_early_primary_sections content key_concepts subject
      else if grade_num ≤ 5 then _create_primary_sections content key_concepts subject
      else _create_upper_primary_sections content key_concepts subject
    let title := _generate_worksheet_title subject (key_concepts.headD "General") grade_num
    match _estimate_completion_time sections grade_num with
    | none => Except.error ("invalid literal for int() with base 10: time_estimate")
    | some estimated_time =>
      Except.ok (dictInsert grade_level
        { grade_level := grade_level
          title := title
          learning_objectives :=
            _adapt_learning_objectives content_analysis.learning_objectives grade_num
          sections := sections
          hindi_version :=
            if language_preference = "hindi" ∨ language_preference = "hindi_english" then
              some (_translate_worksheet_to_hindi title)
            else none
          assessment := _create_grade_appropriate_assessment grade_num subject
          materials_needed := _list_required_materials sections grade_num
          estimated_time := estimated_time }
        worksheets)

/-- `generate_differentiated_worksheets` (lines 183-242): the loop over
`grade_levels` building the `worksheets` dict; an exception in any
iteration propagates to the caller. -/
def generate_differentiated_worksheets (content : String)
    (content_analysis : ContentAnalysis) (grade_levels : List String)
    (language_preference : String) : Except String (List (String × Worksheet)) :=
  grade_levels.foldlM (generate_step content content_analysis language_preference) []

/-- One recreatable-visual dict (tools.py lines 253-260);
`type` rendered `type_`. -/
structure RecreatableVisual where
  type_ : String
  description : String
  materials : List String
  instructions : String
  deriving DecidableEq, Repr

/-- The dict returned by `_extract_visual_elements` (lines 246-261). -/
structure VisualElements where
  diagrams : List String
  charts : List String
  illustrations : List String
  recreatable_visuals : List RecreatableVisual
  deriving DecidableEq, Repr

/-- `_extract_visual_elements` (lines 246-261): a fixed literal,
independent of both arguments. -/
def _extract_visual_elements (_image_base64 : String) (_subject : String) : VisualElements :=
  { diagrams := []
    charts := []
    illustrations := []
    recreatable_visuals :=
      [ { type_ := "simple_diagram"
          description := "Basic diagram that can be drawn on blackboard"
          materials := ["chalk", "ruler"]
          instructions := "Step-by-step drawing instructions" } ] }

/-- The dict returned by `_generate_teacher_notes` (lines 621-644). -/
structure TeacherNotes where
  preparation_tips : List String
  implementation_strategies : List String
  common_challenges : List String
  extension_ideas : List String
  deriving DecidableEq, Repr

/-- `_generate_teacher_notes` (lines 621-644): a fixed literal. -/
def _generate_teacher_notes (_content_analysis : ContentAnalysis)
    (_worksheets : List (String × Worksheet)) : TeacherNotes :=
  { preparation_tips :=
      [ "Review key concepts before class",
        "Prepare visual aids from local materials",
        "Plan for different learning paces" ]
    implementation_strategies :=
      [ "Start with group discussion",
        "Use peer learning for mixed abilities",
        "Provide individual support as needed" ]
    common_challenges :=
      [ "Students may struggle with language",
        "Different grade levels need different support",
        "Limited resources require creativity" ]
    extension_ideas :=
      [ "Connect to local community examples",
        "Create hands-on activities",
        "Encourage student presentations" ] }

/-- The `differentiation_tips` sub-dict of the implementation guide
(lines 665-676). -/
structure DifferentiationTips where
  for_struggling_students : List String
  for_advanced_students : List String
  deriving DecidableEq, Repr

/-- The dict returned by `_create_implementation_guide`
(lines 646-677). -/
structure ImplementationGuide where
  before_class : List String
  during_class : List String
  after_class : List String
  differentiation_tips : DifferentiationTips
  deriving DecidableEq, Repr

/-- `_create_implementation_guide` (lines 646-677): a fixed literal. -/
def _create_implementation_guide (_worksheets : List (String × Worksheet))
    (_grade_levels : List String) : ImplementationGuide :=
  { before_class :=
      [ "Print or write worksheets on blackboard",
        "Gather required materials",
        "Review content and anticipate questions" ]
    during_class :=
      [ "Introduce topic with familiar examples",
        "Distribute worksheets by grade level",
        "Circulate and provide individual support",
        "Facilitate peer learning" ]
    after_class :=
      [ "Review completed work",
        "Identify students needing extra help",
        "Plan follow-up activities" ]
    differentiation_tips :=
      { for_struggling_students :=
          [ "Provide additional examples", "Allow pair work",
            "Break tasks into smaller steps" ]
        for_advanced_students :=
          [ "Provide extension questions", "Encourage helping others",
            "Assign leadership roles" ] } }

/-- A per-grade rubric: criterion name to a rating-descriptor map. -/
def RubricTable := List (String × List (String × String))
  deriving DecidableEq, Repr

/-- `_create_assessment_rubrics` (lines 679-698): parses each grade
string exactly as `generate_differentiated_worksheets` does, so a
malformed grade string raises here too. -/
def _create_assessment_rubrics (_content_analysis : ContentAnalysis)
    (grade_levels : List String) : Except String (List (String × RubricTable)) :=
  grade_levels.foldlM
    (fun rubrics grade_level =>
      match parse_grade_num grade_level with
      | none => Except.error ("invalid literal for int() with base 10: " ++ grade_level)
      | some grade_num =>
        Except.ok (dictInsert grade_level
          (if grade_num ≤ 2 then
            ([ ("participation",
                [ ("excellent", "Active participation"), ("good", "Some participation"),
                  ("needs_improvement", "Limited participation") ]),
               ("understanding",
                [ ("excellent", "Shows clear understanding"),
                  ("good", "Shows basic understanding"),
                  ("needs_improvement", "Needs support") ]) ] : RubricTable)
          else
            ([ ("content_knowledge",
                [ ("4", "Excellent"), ("3", "Good"), ("2", "Satisfactory"),
                  ("1", "Needs Improvement") ]),
               ("application",
                [ ("4", "Applies independently"), ("3", "Applies with guidance"),
                  ("2", "Limited application"), ("1", "Cannot apply") ]),
               ("communication",
                [ ("4", "Clear and detailed"), ("3", "Clear and adequate"),
                  ("2", "Unclear but present"), ("1", "Minimal or unclear") ]) ] : RubricTable))
          rubrics))
    []

/-- Outcome of the `extract_text_from_image` call (lines 75-132) as
seen by `process_textbook_image`.  That function catches its own
exceptions (including malformed base64 and Vision API failures) and
returns a dict that either carries an `error` key or the extracted
text with metadata; `confidence` stands in for the source's float
score, whose value the pipeline only passes through. -/
inductive ExtractOutcome where
  | error_dict (msg : String)
  | ok (text : String) (language : String) (confidence : Nat)
  deriving DecidableEq, Repr

/-- The success dict of `process_textbook_image` (lines 54-67),
one field per key (`original_content` flattened into its three). -/
structure ProcessSuccess where
  extracted_text : String
  detected_language : String
  confidence : Nat
  content_analysis : ContentAnalysis
  worksheets : List (String × Worksheet)
  visual_elements : VisualElements
  teacher_notes : TeacherNotes
  implementation_guide : ImplementationGuide
  assessment_rubrics : List (String × RubricTable)
  deriving DecidableEq, Repr

/-- The dict returned by `process_textbook_image`: the success shape,
the early-return `{"error": ..., "details": ...}` of line 35, or the
`except` handler's `{"error": ..., "status": "failed"}` of lines 69-73. -/
inductive ProcessResult where
  | success (s : ProcessSuccess)
  | extract_failed (details : String)
  | failed (msg : String)
  deriving DecidableEq, Repr

/-- The value of the returned dict's `error` key, when present. -/
def ProcessResult.error? : ProcessResult → Option String
  | .success _ => none
  | .extract_failed _ => some "Failed to extract text from image"
  | .failed msg => some msg

/-- The value of the returned dict's `status` key, when present
(the extraction-error early return carries no `status` key). -/
def ProcessResult.status? : ProcessResult → Option String
  | .success _ => some "success"
  | .extract_failed _ => none
  | .failed _ => some "failed"

/-- `process_textbook_image` (lines 11-73).  `analyze` abstracts
`analyze_content_complexity` (lines 134-181), which is total in the
source and of whose result only `subject`, `key_concepts` and
`learning_objectives` are consumed downstream; `eo` abstracts the
external OCR call. -/
def process_textbook_image (analyze : String → String → ContentAnalysis)
    (eo : ExtractOutcome) (image_base64 : String) (grade_levels : List String)
    (subject_hint language_preference : String) : ProcessResult :=
  match eo with
  | .error_dict details => .extract_failed details
  | .ok text language confidence =>
    let content_analysis := analyze text subject_hint
    match generate_differentiated_worksheets text content_analysis
        grade_levels language_preference with
    | .error e => .failed ("Image processing failed: " ++ e)
    | .ok worksheets =>
      let visual_elements := _extract_visual_elements image_base64 content_analysis.subject
      match _create_assessment_rubrics content_analysis grade_levels with
      | .error e => .failed ("Image processing failed: " ++ e)
      | .ok assessment_rubrics =>
        .success
          { extracted_text := text
            detected_language := language
            confidence := confidence
            content_analysis := content_analysis
            worksheets := worksheets
            visual_elements := visual_elements
            teacher_notes := _generate_teacher_notes content_analysis worksheets
            implementation_guide := _create_implementation_guide worksheets grade_levels
            assessment_rubrics := assessment_rubrics }

/-! ## `guruai_coordinator/agent.py`: the request router -/

/-- The specialist agents, abstracted: each field is the observable
response of one downstream call made by the coordinator
(agent.py lines 18-22 and the calls at 124-151). -/
structure RoutingEnv where
  generate_story : String → String → String → Option String → String
  explain_concept : String → String → String → String
  create_diagram : String → String → String → String
  create_lesson_plan : List String → List String → Int → String → String

/-- The `parameters` sub-dict of the intent, restricted to the keys
the router reads: `subject` (line 148) and `duration` (line 150). -/
structure IntentParameters where
  subject : Option String
  duration : Option Int
  deriving DecidableEq, Repr

/-- The intent dict produced by `_determine_intent` (lines 91-109):
`primary_intent`, `required_agents`, `parameters`.  The dict is the
`eval` of free-form model output, so the `parameters` key may be
absent (its access at line 148 would then raise `KeyError`). -/
structure Intent where
  primary_intent : String
  required_agents : List String
  parameters : Option IntentParameters
  deriving DecidableEq, Repr

/-- The request context dict, restricted to the keys `_route_request`
and `_get_agent_response` read: `cultural_context` (line 129) and
`subject` (line 204).  `context` itself is `Optional` and accessing a
key on `None` raises. -/
structure RequestContext where
  cultural_context : Option String
  subject : Option String
  deriving DecidableEq, Repr

/-- `_get_agent_response` (lines 170-213): dispatch on the agent name;
an unknown name raises `ValueError`, and `grade_levels[0]` on an empty
list or a key access on a `None` context raises too — all modelled as
`Except.error`. -/
def _get_agent_response (env : RoutingEnv) (agent request language : String)
    (grade_levels : List String) (context : Option RequestContext) :
    Except String String :=
  if agent = "content_generator" then
    match grade_levels.head?, context with
    | some g0, some ctx =>
      Except.ok (env.generate_story request language g0 ctx.cultural_context)
    | _, _ => Except.error "Error getting agent response: bad arguments"
  else if agent = "knowledge_base" then
    match grade_levels.head? with
    | some g0 => Except.ok (env.explain_concept request language g0)
    | none => Except.error "Error getting agent response: list index out of range"
  else if agent = "visual_aid_generator" then
    match grade_levels.head? with
    | some g0 => Except.ok (env.create_diagram request language g0)
    | none => Except.error "Error getting agent response: list index out of range"
  else if agent = "assessment_planner" then
    match context with
    | some ctx =>
      Except.ok (env.create_lesson_plan [ctx.subject.getD "general"] grade_levels 5 language)
    | none => Except.error "Error getting agent response: NoneType has no attribute get"
  else
    Except.error ("Error getting agent response: Unknown agent: " ++ agent)

/-- `_route_request` (lines 111-168): the `primary_intent` if/elif
chain, then the `required_agents` loop adding responses for agents not
already present.  Any exception is re-raised, modelled as
`Except.error`. -/
def _route_request (env : RoutingEnv) (intent : Intent) (request language : String)
    (grade_levels : List String) (context : Option RequestContext) :
    Except String (List (String × String)) := do
  let responses : List (String × String) ←
    if intent.primary_intent = "content" then
      match grade_levels.head?, context with
      | some g0, some ctx =>
        Except.ok [("content", env.generate_story request language g0 ctx.cultural_context)]
      | _, _ => Except.error "Error routing request: bad arguments"
    else if intent.primary_intent = "knowledge" then
      match grade_levels.head? with
      | some g0 => Except.ok [("explanation", env.explain_concept request language g0)]
      | none => Except.error "Error routing request: list index out of range"
    else if intent.primary_intent = "visual" then
      match grade_levels.head? with
      | some g0 => Except.ok [("visual", env.create_diagram request language g0)]
      | none => Except.error "Error routing request: list index out of range"
    else if intent.primary_intent = "assessment" then
      match intent.parameters with
      | some ps =>
        Except.ok [("assessment",
          env.create_lesson_plan [ps.subject.getD "general"] grade_levels
            (ps.duration.getD 5) language)]
      | none => Except.error "Error routing request: KeyError: parameters"
    else
      Except.ok []
  intent.required_agents.foldlM
    (fun responses agent =>
      if (dictLookup agent responses).isSome then Except.ok responses
      else do
        let r ← _get_agent_response env agent request language grade_levels context
        Except.ok (dictInsert agent r responses))
    responses

/-- A concrete environment whose agents all answer the empty string,
for evaluating the router at concrete inputs. -/
def trivialEnv : RoutingEnv :=
  { generate_story := fun _ _ _ _ => ""
    explain_concept := fun _ _ _ => ""
    create_diagram := fun _ _ _ => ""
    create_lesson_plan := fun _ _ _ _ => "" }

/-! ## Helper definitions and lemmas for the theorems -/

/-- The eight well-formed grade-level strings `grade_1` .. `grade_8`. -/
def validGradeStrings : List String :=
  ["grade_1", "grade_2", "grade_3", "grade_4", "grade_5", "grade_6", "grade_7", "grade_8"]

/-- The grade band of a numeric grade, as the specification defines it:
early primary 1-2, primary 3-5, upper primary 6-8. -/
def claimBand (n : Int) : String :=
  if 1 ≤ n ∧ n ≤ 2 then "early_primary"
  else if 3 ≤ n ∧ n ≤ 5 then "primary"
  else if 6 ≤ n ∧ n ≤ 8 then "upper_primary"
  else "out_of_range"

/-- The section set each band receives. -/
def sections_of_band (band content : String) (key_concepts : List String)
    (subject : String) : List WsSection :=
  if band = "early_primary" then _create_early_primary_sections content key_concepts subject
  else if band = "primary" then _create_primary_sections content key_concepts subject
  else _create_upper_primary_sections content key_concepts subject

/-- What a generated worksheet for grade string `g` contains: the
grade key, a non-empty section list for `g`'s band, and the title,
objectives, assessment and completion-time entries. -/
def WorksheetComplete (content : String) (ca : ContentAnalysis) (g : String)
    (w : Worksheet) : Prop :=
  w.grade_level = g ∧
  w.sections ≠ [] ∧
  ∃ n, parse_grade_num g = some n ∧
    w.title = _generate_worksheet_title ca.subject (ca.key_concepts.headD "General") n ∧
    w.learning_objectives = _adapt_learning_objectives ca.learning_objectives n ∧
    w.sections = sections_of_band (claimBand n) content ca.key_concepts ca.subject ∧
    w.assessment = _create_grade_appropriate_assessment n ca.subject ∧
    ∃ total : Int, w.estimated_time = toString total ++ " minutes"

lemma dictLookup_insert_self {α β : Type} [DecidableEq α] (k : α) (v : β) :
    ∀ d : List (α × β), dictLookup k (dictInsert k v d) = some v
  | [] => by simp [dictInsert, dictLookup]
  | (a, b) :: rest => by
    by_cases h : a = k
    · simp [dictInsert, dictLookup, h]
    · simp [dictInsert, dictLookup, h, dictLookup_insert_self k v rest]

lemma dictLookup_insert_ne {α β : Type} [DecidableEq α] {k a : α} (h : k ≠ a) (v : β) :
    ∀ d : List (α × β), dictLookup a (dictInsert k v d) = dictLookup a d
  | [] => by simp [dictInsert, dictLookup, fun hh => h hh]
  | (x, b) :: rest => by
    by_cases hx : x = k
    · subst hx
      simp [dictInsert, dictLookup, h, dictLookup_insert_ne h v rest]
    · simp only [dictInsert, if_neg hx, dictLookup]
      by_cases hxa : x = a
      · simp [hxa]
      · simp [hxa, dictLookup_insert_ne h v rest]

lemma dictLookup_insert_cases {α β : Type} [DecidableEq α] {k a : α} {v w : β}
    {d : List (α × β)} (h : dictLookup a (dictInsert k v d) = some w) :
    (a = k ∧ w = v) ∨ dictLookup a d = some w := by
  by_cases hak : k = a
  · subst hak
    rw [dictLookup_insert_self] at h
    exact Or.inl ⟨rfl, (Option.some_injective _ h).symm⟩
  · rw [dictLookup_insert_ne hak] at h
    exact Or.inr h

/-- For each well-formed grade string, one loop iteration of
`generate_differentiated_worksheets` succeeds and inserts a complete
worksheet for that grade. -/
lemma generate_step_ok (content : String) (ca : ContentAnalysis) (lp : String)
    (ws : List (String × Worksheet)) (g : String) (hg : g ∈ validGradeStrings) :
    ∃ w, generate_step content ca lp ws g = Except.ok (dictInsert g w ws) ∧
      WorksheetComplete content ca g w := by
  simp only [validGradeStrings, List.mem_cons, List.not_mem_nil, or_false] at hg
  rcases hg with rfl | rfl | rfl | rfl | rfl | rfl | rfl | rfl
  · exact ⟨_, rfl, rfl, fun h => List.noConfusion h, 1, rfl, rfl, rfl, rfl, rfl, 37, rfl⟩
  · exact ⟨_, rfl, rfl, fun h => List.noConfusion h, 2, rfl, rfl, rfl, rfl, rfl, 37, rfl⟩
  · exact ⟨_, rfl, rfl, fun h => List.noConfusion h, 3, rfl, rfl, rfl, rfl, rfl, 45, rfl⟩
  · exact ⟨_, rfl, rfl, fun h => List.noConfusion h, 4, rfl, rfl, rfl, rfl, rfl, 45, rfl⟩
  · exact ⟨_, rfl, rfl, fun h => List.noConfusion h, 5, rfl, rfl, rfl, rfl, rfl, 45, rfl⟩
  · exact ⟨_, rfl, rfl, fun h => List.noConfusion h, 6, rfl, rfl, rfl, rfl, rfl, 55, rfl⟩
  · exact ⟨_, rfl, rfl, fun h => List.noConfusion h, 7, rfl, rfl, rfl, rfl, rfl, 55, rfl⟩
  · exact ⟨_, rfl, rfl, fun h => List.noConfusion h, 8, rfl, rfl, rfl, rfl, rfl, 55, rfl⟩

/-- Loop invariant of `generate_differentiated_worksheets`: on
well-formed grade strings the fold succeeds, preserves untouched keys,
installs a complete worksheet for every processed grade, and adds no
key outside the processed grades. -/
lemma generate_loop_ok (content : String) (ca : ContentAnalysis) (lp : String) :
    ∀ (gls : List String) (ws0 : List (String × Worksheet)),
      (∀ g ∈ gls, g ∈ validGradeStrings) →
      ∃ ws, List.foldlM (generate_step content ca lp) ws0 gls = Except.ok ws ∧
        (∀ g w, g ∉ gls → dictLookup g ws0 = some w → dictLookup g ws = some w) ∧
        (∀ g ∈ gls, ∃ w, dictLookup g ws = some w ∧ WorksheetComplete content ca g w) ∧
        (∀ g w, dictLookup g ws = some w → dictLookup g ws0 = some w ∨ g ∈ gls) := by
  intro gls
  induction gls with
  | nil =>
    intro ws0 _
    exact ⟨ws0, rfl, fun _ _ _ hw => hw, by simp, fun _ _ hw => Or.inl hw⟩
  | cons g rest ih =>
    intro ws0 h
    obtain ⟨w, hstep, hP⟩ :=
      generate_step_ok content ca lp ws0 g (h g (List.mem_cons_self g rest))
    obtain ⟨ws, hfold, hpres, hmem, hdom⟩ :=
      ih (dictInsert g w ws0) (fun x hx => h x (List.mem_cons_of_mem g hx))
    have hbind : List.foldlM (generate_step content ca lp) ws0 (g :: rest)
        = List.foldlM (generate_step content ca lp) (dictInsert g w ws0) rest := by
      rw [List.foldlM_cons, hstep]
      rfl
    refine ⟨ws, by rw [hbind, hfold], ?_, ?_, ?_⟩
    · intro x wx hx hlook
      have hxg : x ≠ g := fun hh => hx (hh ▸ List.mem_cons_self g rest)
      have hxrest : x ∉ rest := fun hh => hx (List.mem_cons_of_mem g hh)
      exact hpres x wx hxrest (by rw [dictLookup_insert_ne (fun hh => hxg hh.symm)]; exact hlook)
    · intro x hx
      rcases List.mem_cons.mp hx with rfl | hxrest
      · by_cases hxr : x ∈ rest
        · exact hmem x hxr
        · exact ⟨w, hpres x w hxr (dictLookup_insert_self x w ws0), hP⟩
      · exact hmem x hxrest
    · intro x wx hlook
      rcases hdom x wx hlook with hl | hr
      · rcases dictLookup_insert_cases hl with ⟨rfl, _⟩ | hl0
        · exact Or.inr (List.mem_cons_self x rest)
        · exact Or.inl hl0
      · exact Or.inr (List.mem_cons_of_mem g hr)

/-- Totality of the grade-characteristics lookup on the initialized
model, with lookup integrity. -/
lemma init_get_total (g : GradeLevel) :
    ∃ c, GradeDifferentiationModel.init.get_grade_characteristics g = some c ∧
      c.grade_level = g := by
  cases g <;> exact ⟨_, rfl, rfl⟩

/-- What `adapt_content_for_grade` returns once the characteristics
lookup succeeds, independently of the differentiation-rule lookup. -/
lemma adapt_eq (m : GradeDifferentiationModel) (content concept : String)
    (g : GradeLevel) (c : GradeCharacteristics)
    (hc : m.get_grade_characteristics g = some c) :
    ∃ r, m.adapt_content_for_grade content concept g = some r ∧
      r.adapted_content = _simplify_language content c.vocabulary_level ∧
      r.recommended_activities = c.preferred_activities.map ActivityType.value ∧
      r.time_estimate = c.attention_span_minutes ∧
      r.teaching_approach = _get_teaching_approach c ∧
      r.assessment_method = _get_assessment_method c ∧
      r.learning_characteristics = c.learning_characteristics := by
  unfold GradeDifferentiationModel.adapt_content_for_grade
  rw [hc]
  rcases h1 : dictLookup concept m.differentiation_rules with _ | d
  · exact ⟨_, rfl, rfl, rfl, rfl, rfl, rfl, rfl⟩
  · rcases h2 : dictLookup g d.grade_adaptations with _ | a
    · exact ⟨_, rfl, rfl, rfl, rfl, rfl, rfl, rfl⟩
    · exact ⟨_, rfl, rfl, rfl, rfl, rfl, rfl, rfl⟩

/-- Attention span of a grade on the initialized model (0 would mean a
failed lookup; the lookup never fails). -/
def attention_of (g : GradeLevel) : Nat :=
  match GradeDifferentiationModel.init.get_grade_characteristics g with
  | some c => c.attention_span_minutes
  | none => 0

/-! ## Claim theorems -/

/-- C4: the grade characteristics table has exactly 8 entries, keyed
grade_1 .. grade_8 in order; for every grade level the lookup is
defined and returns a profile whose `grade_level` field equals the
key; and no operation of `GradeDifferentiationModel` changes the
instance state, so the table is read-only at runtime. -/
theorem c4_grade_table_lookup_integrity :
    _initialize_grade_characteristics.length = 8 ∧
    _initialize_grade_characteristics.map Prod.fst =
      [GradeLevel.grade_1, GradeLevel.grade_2, GradeLevel.grade_3, GradeLevel.grade_4,
       GradeLevel.grade_5, GradeLevel.grade_6, GradeLevel.grade_7, GradeLevel.grade_8] ∧
    (∀ g : GradeLevel, ∃ c,
      GradeDifferentiationModel.init.get_grade_characteristics g = some c ∧
      c.grade_level = g) ∧
    (∀ (content concept : String) (g : GradeLevel) (gs : List GradeLevel),
      (GradeDifferentiationModel.init.get_grade_characteristicsS g).2
          = GradeDifferentiationModel.init ∧
      (GradeDifferentiationModel.init.adapt_content_for_gradeS content concept g).2
          = GradeDifferentiationModel.init ∧
      (GradeDifferentiationModel.init.get_multi_grade_adaptationsS content concept gs).2
          = GradeDifferentiationModel.init ∧
      (GradeDifferentiationModel.init.suggest_cross_grade_activitiesS concept gs).2
          = GradeDifferentiationModel.init) :=
  ⟨by decide, by decide, init_get_total, fun _ _ _ _ => ⟨rfl, rfl, rfl, rfl⟩⟩

/-- C5: when the concept is absent from the differentiation rules
table, or its rule has no entry for the requested grade level,
`adapt_content_for_grade` falls back to the generic rules: the
`specific_adaptations` mapping is empty while the adapted content is
still produced by language simplification and every other field is
derived from the grade profile. -/
theorem c5_absent_rules_fall_back (content concept : String) (g : GradeLevel)
    (h : dictLookup concept GradeDifferentiationModel.init.differentiation_rules = none ∨
      ∃ d, dictLookup concept GradeDifferentiationModel.init.differentiation_rules = some d ∧
        dictLookup g d.grade_adaptations = none) :
    ∃ c r, GradeDifferentiationModel.init.get_grade_characteristics g = some c ∧
      GradeDifferentiationModel.init.adapt_content_for_grade content concept g = some r ∧
      r.specific_adaptations = [] ∧
      r.adapted_content = _simplify_language content c.vocabulary_level ∧
      r.recommended_activities = c.preferred_activities.map ActivityType.value ∧
      r.time_estimate = c.attention_span_minutes ∧
      r.teaching_approach = _get_teaching_approach c ∧
      r.assessment_method = _get_assessment_method c ∧
      r.learning_characteristics = c.learning_characteristics := by
  obtain ⟨c, hc, _⟩ := init_get_total g
  refine ⟨c, ?_⟩
  unfold GradeDifferentiationModel.adapt_content_for_grade
  rw [hc]
  rcases h1 : dictLookup concept GradeDifferentiationModel.init.differentiation_rules with _ | d
  · exact ⟨_, rfl, rfl, rfl, rfl, rfl, rfl, rfl, rfl, rfl⟩
  · rcases h with h | ⟨d2, hd2, hg2⟩
    · rw [h1] at h
      exact Option.noConfusion h
    · rw [h1] at hd2
      have hdd : d = d2 := Option.some_injective _ hd2
      subst hdd
      refine ⟨_, rfl, rfl, ?_, rfl, rfl, rfl, rfl, rfl, rfl⟩
      simp only [hg2]

/-- Witness for C5 at a concrete input: the concept `fractions` has no
differentiation rule, and grade 4 receives the generic fallback. -/
theorem c5_absent_rules_fall_back_witness :
    (dictLookup "fractions" GradeDifferentiationModel.init.differentiation_rules = none ∨
      ∃ d, dictLookup "fractions" GradeDifferentiationModel.init.differentiation_rules
          = some d ∧ dictLookup GradeLevel.grade_4 d.grade_adaptations = none) ∧
    (∃ c r,
      GradeDifferentiationModel.init.get_grade_characteristics GradeLevel.grade_4 = some c ∧
      GradeDifferentiationModel.init.adapt_content_for_grade
        "Fractions are parts of a whole" "fractions" GradeLevel.grade_4 = some r ∧
      r.specific_adaptations = [] ∧
      r.adapted_content = _simplify_language "Fractions are parts of a whole" c.vocabulary_level ∧
      r.recommended_activities = c.preferred_activities.map ActivityType.value ∧
      r.time_estimate = c.attention_span_minutes ∧
      r.teaching_approach = _get_teaching_approach c ∧
      r.assessment_method = _get_assessment_method c ∧
      r.learning_characteristics = c.learning_characteristics) :=
  ⟨Or.inl (by decide),
   c5_absent_rules_fall_back "Fractions are parts of a whole" "fractions"
     GradeLevel.grade_4 (Or.inl (by decide))⟩

/-- C6: for every grade level and content string, the adaptation's
`time_estimate` equals the attention span of the grade's profile and
`recommended_activities` lists, in order, the profile's preferred
activity types. -/
theorem c6_time_and_activities_from_profile (content concept : String) (g : GradeLevel) :
    ∃ c r, GradeDifferentiationModel.init.get_grade_characteristics g = some c ∧
      GradeDifferentiationModel.init.adapt_content_for_grade content concept g = some r ∧
      r.time_estimate = c.attention_span_minutes ∧
      r.recommended_activities = c.preferred_activities.map ActivityType.value := by
  obtain ⟨c, hc, _⟩ := init_get_total g
  obtain ⟨r, hr, _, hact, htime, _, _, _⟩ := adapt_eq _ content concept g c hc
  exact ⟨c, r, hc, hr, htime, hact⟩

/-- C8: the engine is deterministic across runs — running
`adapt_content_for_grade` (or `get_multi_grade_adaptations`) a second
time on equal inputs, threading the instance state of the first run,
yields the same output, and neither run changes the instance state. -/
theorem c8_engine_deterministic (content concept : String) (g : GradeLevel)
    (gs : List GradeLevel) :
    (GradeDifferentiationModel.init.adapt_content_for_gradeS content concept g).1
        = (((GradeDifferentiationModel.init.adapt_content_for_gradeS content concept g).2).adapt_content_for_gradeS
            content concept g).1 ∧
    (GradeDifferentiationModel.init.adapt_content_for_gradeS content concept g).2
        = GradeDifferentiationModel.init ∧
    (GradeDifferentiationModel.init.get_multi_grade_adaptationsS content concept gs).1
        = (((GradeDifferentiationModel.init.get_multi_grade_adaptationsS content concept gs).2).get_multi_grade_adaptationsS
            content concept gs).1 ∧
    (GradeDifferentiationModel.init.get_multi_grade_adaptationsS content concept gs).2
        = GradeDifferentiationModel.init :=
  ⟨rfl, rfl, rfl, rfl⟩

/-- C10: attention span is strictly increasing in grade level, from
10 minutes at grade 1 to 45 at grade 8, and therefore the adaptation's
time estimate is strictly increasing in grade as well. -/
theorem c10_attention_strictly_increasing :
    (∀ g1 g2 : GradeLevel, g1.idx < g2.idx → attention_of g1 < attention_of g2) ∧
    attention_of GradeLevel.grade_1 = 10 ∧ attention_of GradeLevel.grade_8 = 45 ∧
    (∀ (content concept : String) (g1 g2 : GradeLevel), g1.idx < g2.idx →
      ∃ r1 r2,
        GradeDifferentiationModel.init.adapt_content_for_grade content concept g1 = some r1 ∧
        GradeDifferentiationModel.init.adapt_content_for_grade content concept g2 = some r2 ∧
        r1.time_estimate < r2.time_estimate) := by
  have mono : ∀ g1 g2 : GradeLevel, g1.idx < g2.idx → attention_of g1 < attention_of g2 := by
    decide
  refine ⟨mono, by decide, by decide, ?_⟩
  intro content concept g1 g2 h
  obtain ⟨c1, hc1, _⟩ := init_get_total g1
  obtain ⟨c2, hc2, _⟩ := init_get_total g2
  obtain ⟨r1, hr1, _, _, ht1, _, _, _⟩ := adapt_eq _ content concept g1 c1 hc1
  obtain ⟨r2, hr2, _, _, ht2, _, _, _⟩ := adapt_eq _ content concept g2 c2 hc2
  have e1 : attention_of g1 = c1.attention_span_minutes := by
    unfold attention_of
    rw [hc1]
  have e2 : attention_of g2 = c2.attention_span_minutes := by
    unfold attention_of
    rw [hc2]
  refine ⟨r1, r2, hr1, hr2, ?_⟩
  rw [ht1, ht2, ← e1, ← e2]
  exact mono g1 g2 h

/-- Witness for C10 at grades 2 and 6. -/
theorem c10_attention_strictly_increasing_witness :
    GradeLevel.grade_2.idx < GradeLevel.grade_6.idx ∧
    ∃ r1 r2,
      GradeDifferentiationModel.init.adapt_content_for_grade
        "water cycle" "photosynthesis" GradeLevel.grade_2 = some r1 ∧
      GradeDifferentiationModel.init.adapt_content_for_grade
        "water cycle" "photosynthesis" GradeLevel.grade_6 = some r2 ∧
      r1.time_estimate < r2.time_estimate :=
  ⟨by decide,
   c10_attention_strictly_increasing.2.2.2 "water cycle" "photosynthesis"
     GradeLevel.grade_2 GradeLevel.grade_6 (by decide)⟩

/-- C2: for every non-empty list of well-formed grade levels,
`generate_differentiated_worksheets` succeeds and returns exactly one
worksheet per requested grade level, keyed by that grade level, each
containing a title, learning objectives, a non-empty section list, an
assessment entry and an estimated completion time; no other key
occurs. -/
theorem c2_one_worksheet_per_grade (content lp : String) (ca : ContentAnalysis)
    (gls : List String) (_hne : gls ≠ [])
    (hval : ∀ g ∈ gls, g ∈ validGradeStrings) :
    ∃ ws, generate_differentiated_worksheets content ca gls lp = Except.ok ws ∧
      (∀ g ∈ gls, ∃ w, dictLookup g ws = some w ∧ WorksheetComplete content ca g w) ∧
      (∀ g w, dictLookup g ws = some w → g ∈ gls) := by
  obtain ⟨ws, hfold, _, hmem, hdom⟩ := generate_loop_ok content ca lp gls [] hval
  refine ⟨ws, hfold, hmem, ?_⟩
  intro g w hw
  rcases hdom g w hw with hl | hr
  · exact Option.noConfusion hl
  · exact hr

/-- Witness for C2 on grades 2 and 7 with a concrete analysis. -/
theorem c2_one_worksheet_per_grade_witness :
    ((["grade_2", "grade_7"] : List String) ≠ [] ∧
      ∀ g ∈ (["grade_2", "grade_7"] : List String), g ∈ validGradeStrings) ∧
    (∃ ws, generate_differentiated_worksheets "Plants need water"
        { subject := "science", key_concepts := ["plants"],
          learning_objectives := ["Observe natural phenomena"] }
        ["grade_2", "grade_7"] "hindi_english" = Except.ok ws ∧
      (∀ g ∈ (["grade_2", "grade_7"] : List String), ∃ w, dictLookup g ws = some w ∧
        WorksheetComplete "Plants need water"
          { subject := "science", key_concepts := ["plants"],
            learning_objectives := ["Observe natural phenomena"] } g w) ∧
      (∀ g w, dictLookup g ws = some w → g ∈ (["grade_2", "grade_7"] : List String))) :=
  ⟨⟨by decide, by decide⟩,
   c2_one_worksheet_per_grade "Plants need water" "hindi_english"
     { subject := "science", key_concepts := ["plants"],
       learning_objectives := ["Observe natural phenomena"] }
     ["grade_2", "grade_7"] (by decide) (by decide)⟩

/-- C3: worksheet sections are assigned purely by the grade band
(early primary 1-2, primary 3-5, upper primary 6-8): every generated
worksheet carries exactly its band's section set, so two requested
grades in the same band receive identical sections. -/
theorem c3_sections_by_grade_band (content lp : String) (ca : ContentAnalysis)
    (gls : List String) (hval : ∀ g ∈ gls, g ∈ validGradeStrings) :
    ∃ ws, generate_differentiated_worksheets content ca gls lp = Except.ok ws ∧
      ∀ g1, g1 ∈ gls → ∀ g2, g2 ∈ gls → ∀ n1 n2 w1 w2,
        parse_grade_num g1 = some n1 → parse_grade_num g2 = some n2 →
        dictLookup g1 ws = some w1 → dictLookup g2 ws = some w2 →
        w1.sections = sections_of_band (claimBand n1) content ca.key_concepts ca.subject ∧
        (claimBand n1 = claimBand n2 → w1.sections = w2.sections) := by
  obtain ⟨ws, hfold, _, hmem, _⟩ := generate_loop_ok content ca lp gls [] hval
  refine ⟨ws, hfold, ?_⟩
  intro g1 h1 g2 h2 n1 n2 w1 w2 hp1 hp2 hw1 hw2
  obtain ⟨w1', hw1', -, -, m1, hm1, -, -, hs1, -, -, -⟩ := hmem g1 h1
  obtain ⟨w2', hw2', -, -, m2, hm2, -, -, hs2, -, -, -⟩ := hmem g2 h2
  rw [hw1] at hw1'
  obtain rfl : w1 = w1' := Option.some_injective _ hw1'
  rw [hw2] at hw2'
  obtain rfl : w2 = w2' := Option.some_injective _ hw2'
  rw [hp1] at hm1
  obtain rfl : n1 = m1 := Option.some_injective _ hm1
  rw [hp2] at hm2
  obtain rfl : n2 = m2 := Option.some_injective _ hm2
  refine ⟨hs1, fun hband => ?_⟩
  rw [hs1, hs2, hband]

/-- Witness for C3: grades 3 and 4 (same band) and the hypotheses at a
concrete input. -/
theorem c3_sections_by_grade_band_witness :
    (∀ g ∈ (["grade_3", "grade_4"] : List String), g ∈ validGradeStrings) ∧
    (∃ ws, generate_differentiated_worksheets "Add the numbers"
        { subject := "mathematics", key_concepts := ["addition"],
          learning_objectives := ["Use mathematical reasoning"] }
        ["grade_3", "grade_4"] "english" = Except.ok ws ∧
      ∀ g1, g1 ∈ (["grade_3", "grade_4"] : List String) →
        ∀ g2, g2 ∈ (["grade_3", "grade_4"] : List String) → ∀ n1 n2 w1 w2,
        parse_grade_num g1 = some n1 → parse_grade_num g2 = some n2 →
        dictLookup g1 ws = some w1 → dictLookup g2 ws = some w2 →
        w1.sections = sections_of_band (claimBand n1) "Add the numbers"
          ["addition"] "mathematics" ∧
        (claimBand n1 = claimBand n2 → w1.sections = w2.sections)) :=
  ⟨by decide,
   c3_sections_by_grade_band "Add the numbers" "english"
     { subject := "mathematics", key_concepts := ["addition"],
       learning_objectives := ["Use mathematical reasoning"] }
     ["grade_3", "grade_4"] (by decide)⟩

/-- Counterexample for C7: the second section of the early-primary
band ("मिलान करो (Match)") has a non-empty activity list in which no
activity carries a question list at all, refuting "every section of
every generated worksheet has a non-empty question list". -/
theorem c7_counterexample_match_section_without_questions :
    ∃ s ∈ _create_early_primary_sections "Plants need water" ["plants"] "science",
      s.activities ≠ [] ∧ ∀ a ∈ s.activities, a.questions = none := by
  decide

/-- C7 amended: every section produced by the three band generators
has a non-empty title, a non-empty type, a non-empty activity list
whose activities all carry non-empty instructions and a format, and a
parseable estimated time; in each band the first section's activity
carries a non-empty question list, while every section after the
first consists of activities that carry no question list at all. -/
theorem c7_amended_sections_wellformed (content : String) (concepts : List String)
    (subject : String) :
    ∀ sections ∈ [ _create_early_primary_sections content concepts subject,
                   _create_primary_sections content concepts subject,
                   _create_upper_primary_sections content concepts subject ],
      (∀ s ∈ sections, s.title ≠ "" ∧ s.type_ ≠ "" ∧ s.activities ≠ [] ∧
        (∀ a ∈ s.activities, a.instruction ≠ "" ∧ a.format ≠ "") ∧
        (str_toInt? (first_token s.time_estimate)).isSome = true) ∧
      (∃ s0 ∈ sections.take 1, ∃ a ∈ s0.activities,
        a.questions ≠ none ∧ a.questions ≠ some []) ∧
      (∀ s ∈ sections.drop 1, ∀ a ∈ s.activities, a.questions = none) := by
  have h1 : _create_early_primary_sections content concepts subject
      = _create_early_primary_sections "" [] "" := rfl
  have h2 : _create_primary_sections content concepts subject
      = _create_primary_sections "" [] "" := rfl
  have h3 : _create_upper_primary_sections content concepts subject
      = _create_upper_primary_sections "" [] "" := rfl
  rw [h1, h2, h3]
  decide

/-- Witness for C7 amended, at the early-primary band on concrete
arguments. -/
theorem c7_amended_sections_wellformed_witness :
    _create_early_primary_sections "Plants need water" ["plants"] "science"
      ∈ [ _create_early_primary_sections "Plants need water" ["plants"] "science",
          _create_primary_sections "Plants need water" ["plants"] "science",
          _create_upper_primary_sections "Plants need water" ["plants"] "science" ] ∧
    ((∀ s ∈ _create_early_primary_sections "Plants need water" ["plants"] "science",
        s.title ≠ "" ∧ s.type_ ≠ "" ∧ s.activities ≠ [] ∧
        (∀ a ∈ s.activities, a.instruction ≠ "" ∧ a.format ≠ "") ∧
        (str_toInt? (first_token s.time_estimate)).isSome = true) ∧
      (∃ s0 ∈ (_create_early_primary_sections "Plants need water" ["plants"] "science").take 1,
        ∃ a ∈ s0.activities, a.questions ≠ none ∧ a.questions ≠ some []) ∧
      (∀ s ∈ (_create_early_primary_sections "Plants need water" ["plants"] "science").drop 1,
        ∀ a ∈ s.activities, a.questions = none)) :=
  ⟨by decide,
   c7_amended_sections_wellformed "Plants need water" ["plants"] "science"
     (_create_early_primary_sections "Plants need water" ["plants"] "science") (by decide)⟩

/-- When some requested grade string does not parse as an integer, the
worksheet-generation loop raises (propagates `Except.error`). -/
lemma generate_fails_of_bad_grade (content : String) (ca : ContentAnalysis) (lp : String) :
    ∀ (gls : List String) (ws0 : List (String × Worksheet)),
      (∃ g ∈ gls, parse_grade_num g = none) →
      ∃ e, List.foldlM (generate_step content ca lp) ws0 gls = Except.error e := by
  intro gls
  induction gls with
  | nil =>
    intro ws0 h
    rcases h with ⟨g, hg, _⟩
    exact absurd hg (List.not_mem_nil g)
  | cons g rest ih =>
    intro ws0 h
    rcases hp : parse_grade_num g with _ | n
    · refine ⟨"invalid literal for int() with base 10: " ++ g, ?_⟩
      rw [List.foldlM_cons]
      unfold generate_step
      rw [hp]
      rfl
    · rcases h with ⟨g', hg', hpg'⟩
      rcases List.mem_cons.mp hg' with rfl | hrest
      · rw [hp] at hpg'
        exact Option.noConfusion hpg'
      · rcases hstep : generate_step content ca lp ws0 g with e | ws1
        · exact ⟨e, by rw [List.foldlM_cons, hstep]; rfl⟩
        · obtain ⟨e, he⟩ := ih ws1 ⟨g', hrest, hpg'⟩
          exact ⟨e, by rw [List.foldlM_cons, hstep]; exact he⟩

/-- C9: `process_textbook_image` never propagates an exception: every
input yields a result dict that is either the success shape or carries
an `error` key; an extraction failure yields the error dict without a
`status` key, and an exception in a later step (for example a grade
string that does not parse) yields an error dict with status
`failed`. -/
theorem c9_process_never_throws (analyze : String → String → ContentAnalysis)
    (eo : ExtractOutcome) (image_base64 : String) (gls : List String)
    (subject_hint lp : String) :
    ((∃ s, process_textbook_image analyze eo image_base64 gls subject_hint lp
        = ProcessResult.success s) ∨
      (process_textbook_image analyze eo image_base64 gls subject_hint lp).error?.isSome
        = true) ∧
    (∀ d, eo = ExtractOutcome.error_dict d →
      (process_textbook_image analyze eo image_base64 gls subject_hint lp).error?
          = some "Failed to extract text from image" ∧
      (process_textbook_image analyze eo image_base64 gls subject_hint lp).status?
          = none) ∧
    (∀ text lang conf, eo = ExtractOutcome.ok text lang conf →
      (∃ g ∈ gls, parse_grade_num g = none) →
      (process_textbook_image analyze eo image_base64 gls subject_hint lp).error?.isSome
          = true ∧
      (process_textbook_image analyze eo image_base64 gls subject_hint lp).status?
          = some "failed") := by
  cases eo with
  | error_dict d =>
    refine ⟨Or.inr rfl, fun d' _ => ⟨rfl, rfl⟩, fun text lang conf heq _ => ?_⟩
    exact ExtractOutcome.noConfusion heq
  | ok text lang conf =>
    refine ⟨?_, fun d' hd => ExtractOutcome.noConfusion hd, ?_⟩
    · rcases hg : generate_differentiated_worksheets text (analyze text subject_hint) gls lp
          with e | ws
      · right
        simp only [process_textbook_image, hg]
        rfl
      · rcases hr : _create_assessment_rubrics (analyze text subject_hint) gls
            with e2 | rubrics
        · right
          simp only [process_textbook_image, hg, hr]
          rfl
        · left
          simp only [process_textbook_image, hg, hr]
          exact ⟨_, rfl⟩
    · intro text' lang' conf' heq hbad
      cases heq
      obtain ⟨e, he⟩ := generate_fails_of_bad_grade text (analyze text subject_hint) lp gls [] hbad
      have hg : generate_differentiated_worksheets text (analyze text subject_hint) gls lp
          = Except.error e := he
      constructor
      · simp only [process_textbook_image, hg]
        rfl
      · simp only [process_textbook_image, hg]
        rfl

/-- A concrete content analysis for evaluating the pipeline at
concrete inputs. -/
def analyze_stub : String → String → ContentAnalysis :=
  fun _ _ => { subject := "general", key_concepts := [], learning_objectives := [] }

/-- Witness for C9: a grade string that `int()` cannot parse makes the
pipeline return an error dict with status `failed`. -/
theorem c9_process_never_throws_witness :
    (process_textbook_image analyze_stub
      (ExtractOutcome.ok "Plants need water" "english" 80) "img-bytes" ["grade_x"]
      "auto" "hindi_english").error?.isSome = true ∧
    (process_textbook_image analyze_stub
      (ExtractOutcome.ok "Plants need water" "english" 80) "img-bytes" ["grade_x"]
      "auto" "hindi_english").status? = some "failed" :=
  (c9_process_never_throws analyze_stub
      (ExtractOutcome.ok "Plants need water" "english" 80) "img-bytes" ["grade_x"]
      "auto" "hindi_english").2.2 "Plants need water" "english" 80 rfl (by decide)

/-- Counterexample for C1: a request whose detected intent is
`worksheet` matches no branch of `_route_request`; with no
`required_agents` the router returns an empty response dict — no
specialist is invoked and no `worksheet` key exists — refuting
"for each of the five primary_intent values the router dispatches to
the matching specialist agent". -/
theorem c1_counterexample_worksheet_intent_unrouted :
    _route_request trivialEnv
      { primary_intent := "worksheet", required_agents := [], parameters := none }
      "Create a worksheet from this chapter" "english" ["grade_5"] none
      = Except.ok [] ∧
    ¬ ∃ resp r,
      _route_request trivialEnv
        { primary_intent := "worksheet", required_agents := [], parameters := none }
        "Create a worksheet from this chapter" "english" ["grade_5"] none
        = Except.ok resp ∧
      dictLookup "worksheet" resp = some r := by
  refine ⟨rfl, ?_⟩
  rintro ⟨resp, r, h1, h2⟩
  have h0 : (Except.ok ([] : List (String × String)) : Except String _)
      = Except.ok resp := h1
  injection h0 with h3
  subst h3
  exact Option.noConfusion h2

/-- C1 amended: the router dispatches only four of the five intents —
content, knowledge, visual and assessment — to their specialist agents
under the keys `content`, `explanation`, `visual` and `assessment`; a
`worksheet` intent matches no branch, so (with no required agents) the
router invokes no specialist and returns an empty response. -/
theorem c1_amended_router_dispatches_four_intents (env : RoutingEnv)
    (request language g0 : String) (rest : List String) (ctx : RequestContext)
    (ps : IntentParameters) :
    _route_request env ⟨"content", [], none⟩ request language (g0 :: rest) (some ctx)
      = Except.ok [("content", env.generate_story request language g0 ctx.cultural_context)] ∧
    _route_request env ⟨"knowledge", [], none⟩ request language (g0 :: rest) (some ctx)
      = Except.ok [("explanation", env.explain_concept request language g0)] ∧
    _route_request env ⟨"visual", [], none⟩ request language (g0 :: rest) (some ctx)
      = Except.ok [("visual", env.create_diagram request language g0)] ∧
    _route_request env ⟨"assessment", [], some ps⟩ request language (g0 :: rest) (some ctx)
      = Except.ok [("assessment",
          env.create_lesson_plan [ps.subject.getD "general"] (g0 :: rest)
            (ps.duration.getD 5) language)] ∧
    _route_request env ⟨"worksheet", [], none⟩ request language (g0 :: rest) (some ctx)
      = Except.ok [] :=
  ⟨rfl, rfl, rfl, rfl, rfl⟩

end GuruAI
